import Mathlib

/-!
Verification of the price-collection / aggregation / scoring pipeline of the
kivy_pokemon repository.  Python dict rows are embedded as Lean structures,
float arithmetic as exact rational (`ℚ`) arithmetic, and the few places where
the source takes a real square root (numpy / pandas `std`) are embedded
relationally over `ℝ` with `Real.sqrt`.  All Python functions are total in the
embedding; the try/except wrappers of the source are noted in doc comments.
-/

namespace PokemonCore

/-- A price observation row, as produced by every scraper
(`src/scrapers/ebay_scraper.py` lines 103-112 and the other adapters):
the dict keys `date`, `price`, `source`, `graded`, `grade_value`,
`grade_company`.  Dates are embedded as integer day numbers; the
presentation-only keys (`condition`, `title`) are omitted. -/
structure PriceRecord where
  date : ℤ
  price : ℚ
  source : String
  graded : Bool
  grade_value : Option ℚ
  grade_company : Option String
deriving DecidableEq, Repr

/-- Arithmetic mean of a list of rationals, as `numpy.mean` / `pandas.mean`
compute it (sum divided by length; the sources only apply it to non-empty
columns, the `0 / 0 = 0` convention of `ℚ` covers the unreachable empty case). -/
def meanQ (xs : List ℚ) : ℚ := xs.sum / xs.length

/-- Minimum of a price column (`df.min()`); the sources only apply it to
non-empty columns. -/
def listMinQ : List ℚ → ℚ
  | [] => 0
  | x :: xs => xs.foldl min x

/-- Maximum of a price column (`df.max()`). -/
def listMaxQ : List ℚ → ℚ
  | [] => 0
  | x :: xs => xs.foldl max x

/-- Minimum of a date column (the pandas date min). -/
def listMinI : List ℤ → ℤ
  | [] => 0
  | x :: xs => xs.foldl min x

/-- Maximum of a date column (the pandas date max). -/
def listMaxI : List ℤ → ℤ
  | [] => 0
  | x :: xs => xs.foldl max x

/-- Round a rational to the nearest integer, ties to even — the rounding mode
of the Python builtin `round`. -/
def roundHalfEven (x : ℚ) : ℤ :=
  let f : ℤ := ⌊x⌋
  let frac : ℚ := x - f
  if frac < 1/2 then f
  else if 1/2 < frac then f + 1
  else if f % 2 = 0 then f else f + 1

/-- The Python builtin `round(x, d)`: round to `d` decimal places, ties to even. -/
def roundTo (d : ℕ) (x : ℚ) : ℚ := (roundHalfEven (x * 10 ^ d) : ℚ) / 10 ^ d

/-- Ordering of rows by the `date` key — the sort key of
the in-place list sort keyed on the date value and `df.sort_values` on the date column. -/
def dateLe (a b : PriceRecord) : Prop := a.date ≤ b.date

instance : DecidableRel dateLe := fun a b => inferInstanceAs (Decidable (a.date ≤ b.date))

instance : IsTotal PriceRecord dateLe := ⟨fun a b => Int.le_total a.date b.date⟩

instance : IsTrans PriceRecord dateLe := ⟨fun _ _ _ hab hbc => le_trans hab hbc⟩

/-- The stable Python `list.sort` / `pandas.sort_values` by the date key:
insertion sort is stable for `dateLe` (an element is inserted before the
first element it is `≤`, i.e. before later elements with an equal date only
if it preceded them). -/
def sortByDate (rows : List PriceRecord) : List PriceRecord :=
  List.insertionSort dateLe rows

/-! ## SignalGenerator (`src/analysis/signals.py`) -/

/-- The z-score of `SignalGenerator.generate_signal`, line 37:
`(current_price - mean_price) / std_dev if std_dev > 0 else 0`. -/
def zScoreOf (current_price mean_price std_dev : ℚ) : ℚ :=
  if 0 < std_dev then (current_price - mean_price) / std_dev else 0

/-- The BUY/SELL/HOLD branch of `generate_signal`, lines 40-54 (kind only). -/
def signalKind (z : ℚ) : String :=
  if z < -1 then "BUY"
  else if 1 < z then "SELL"
  else "HOLD"

/-- The confidence computed in the BUY/SELL/HOLD branch of `generate_signal`,
lines 40-54, before the trend adjustment. -/
def baseConfidence (z : ℚ) : ℚ :=
  if z < -1 then min (|z| * 50) 100
  else if 1 < z then min (|z| * 50) 100
  else 50 + |z| * 25

/-- The trend adjustment of `generate_signal`, lines 57-68: an agreeing strong
trend multiplies confidence by 1.2 (capped at 100), a conflicting strong trend
multiplies it by 0.8. -/
def trendAdjustedConfidence (trend signal : String) (confidence : ℚ) : ℚ :=
  if trend = "strong_upward" ∧ signal = "BUY" then min (confidence * (12/10)) 100
  else if trend = "strong_downward" ∧ signal = "SELL" then min (confidence * (12/10)) 100
  else if trend = "strong_upward" ∧ signal = "SELL" then confidence * (8/10)
  else if trend = "strong_downward" ∧ signal = "BUY" then confidence * (8/10)
  else confidence

/-- The record returned by `generate_signal`, lines 70-79.  The presentation
string `reason` is omitted; `confidence` is rounded to 1 decimal and `z_score`
to 2 decimals exactly as in the source. -/
structure Signal where
  signal : String
  confidence : ℚ
  z_score : ℚ
  current_price : ℚ
  mean_price : ℚ
  std_dev : ℚ
  trend : String
deriving DecidableEq, Repr

/-- `SignalGenerator.generate_signal` (`src/analysis/signals.py` lines 17-79),
the `Classify` operation of the spec.  The `trend` parameter defaults to
`"stable"` in the source. -/
def generate_signal (current_price mean_price std_dev : ℚ)
    (trend : String := "stable") : Signal :=
  let z := zScoreOf current_price mean_price std_dev
  { signal := signalKind z
    confidence := roundTo 1 (trendAdjustedConfidence trend (signalKind z) (baseConfidence z))
    z_score := roundTo 2 z
    current_price := current_price
    mean_price := mean_price
    std_dev := std_dev
    trend := trend }

/-! ## ScraperManager (`src/scrapers/scraper_manager.py`) -/

/-- `ScraperManager.get_all_prices` (lines 26-65), the `CollectAll` operation:
the four scraper tasks run in a thread pool and each completed result extends
`all_prices` in `as_completed` order; a failed task contributes nothing.
`completed` is the list of per-adapter results in completion order (failed or
deadline-abandoned adapters simply do not appear).  The merge is plain
concatenation — the source performs no sorting here. -/
def get_all_prices (completed : List (List PriceRecord)) : List PriceRecord :=
  completed.flatten

/-- The record returned by `ScraperManager.get_inception_data` (lines 97-102). -/
structure InceptionData where
  card_name : String
  inception_date : Option ℤ
  price_history : List PriceRecord
  data_points : ℕ
deriving DecidableEq, Repr

/-- `ScraperManager.get_inception_data` (lines 79-102): merges all sources via
`get_all_prices`, then sorts the merged list in place, keyed on the date
value alone (a stable sort). -/
def get_inception_data (card_name : String) (completed : List (List PriceRecord)) :
    InceptionData :=
  let all_prices := sortByDate (get_all_prices completed)
  { card_name := card_name
    inception_date := all_prices.head?.map (·.date)
    price_history := all_prices
    data_points := all_prices.length }

/-- Lexicographic strict comparison of two character sequences by code point —
exactly how Python compares two `str` values such as source names. -/
def lexLt : List Char → List Char → Bool
  | [], [] => false
  | [], _ :: _ => true
  | _ :: _, [] => false
  | a :: as, b :: bs => if a < b then true else if b < a then false else lexLt as bs

/-- The ordering claimed by the spec for the merged sequence: ascending by
timestamp, ties broken by source-name lexical order.  Stated from the spec
wording, to be compared with what the source actually produces. -/
def specMergeSorted (l : List PriceRecord) : Prop :=
  l.Pairwise fun a b =>
    a.date < b.date ∨ (a.date = b.date ∧ ¬ lexLt b.source.data a.source.data = true)

instance (l : List PriceRecord) : Decidable (specMergeSorted l) := by
  unfold specMergeSorted
  exact List.instDecidablePairwise l

/-- The dict returned by `ScraperManager._calculate_graded_comparison`
(lines 194-215).  The insufficient-data return, a dict carrying only a null
multiplier and a true insufficient-data flag, is embedded with `none` means
and zero counts for the keys it omits. -/
structure GradedComparison where
  multiplier : Option ℚ
  insufficient_data : Bool
  graded_mean : Option ℚ
  ungraded_mean : Option ℚ
  graded_count : ℕ
  ungraded_count : ℕ
deriving DecidableEq, Repr

/-- `ScraperManager._calculate_graded_comparison` (lines 194-215): splits the
rows into graded and ungraded subsets; if either is empty returns the
insufficient-data sentinel, otherwise `multiplier = graded_mean /
ungraded_mean if ungraded_mean > 0 else None`. -/
def calculate_graded_comparison (rows : List PriceRecord) : GradedComparison :=
  let graded_df := rows.filter (·.graded)
  let ungraded_df := rows.filter (fun r => !r.graded)
  if graded_df = [] ∨ ungraded_df = [] then
    { multiplier := none, insufficient_data := true, graded_mean := none,
      ungraded_mean := none, graded_count := 0, ungraded_count := 0 }
  else
    let graded_mean := meanQ (graded_df.map (·.price))
    let ungraded_mean := meanQ (ungraded_df.map (·.price))
    { multiplier := if 0 < ungraded_mean then some (graded_mean / ungraded_mean) else none
      insufficient_data := false
      graded_mean := some graded_mean
      ungraded_mean := some ungraded_mean
      graded_count := graded_df.length
      ungraded_count := ungraded_df.length }

/-! ## EbayScraper (`src/scrapers/ebay_scraper.py`) -/

/-- One `s-item__info` element of the fetched page, after the per-item
extraction of lines 52-112: `price` is the result of `parse_price` (`none`
when the price element is missing or unparsable), and the remaining fields
are the regex/selector extractions, which are page-parsing details outside
the embedded logic. -/
structure EbayItem where
  price : Option ℚ
  date : ℤ
  graded : Bool
  grade_value : Option ℚ
  grade_company : Option String
deriving DecidableEq, Repr

/-- `EbayScraper._get_mock_data` (lines 131-172): generates exactly `count`
synthetic observations.  The source draws prices, grades and companies from
`random`; the generator is abstracted as the parameter `gen`, so only the
shape (one record per index, `count` records in total) is embedded. -/
def get_mock_data (gen : ℕ → PriceRecord) (count : ℕ) : List PriceRecord :=
  (List.range count).map gen

/-- The parsing loop of `get_sold_listings` (lines 51-116): at most
`max_results` items are examined; an item with a missing or falsy price
(`if not price: continue`, which also skips a parsed price of 0) is dropped,
every other item yields one record.  The remaining per-item try/except only
skips the malformed item. -/
def parseEbayItems (items : List EbayItem) (max_results : ℕ) : List PriceRecord :=
  (items.take max_results).filterMap fun it =>
    match it.price with
    | none => none
    | some p =>
      if p = 0 then none
      else some { date := it.date, price := p, source := "eBay", graded := it.graded,
                  grade_value := it.grade_value, grade_company := it.grade_company }

/-- `EbayScraper.get_sold_listings` (lines 19-129).  `fetched` is the outcome
of `self.get_page(url)`: `none` models a failed fetch (`if not soup`), and
`some items` the parsed listing elements.  A failed fetch or an empty item
list returns mock data of size `max_results`; fewer than 10 usable records
are supplemented with `max_results - len(results)` mock records; the outer
try/except (`results = self._get_mock_data(card_name, max_results)`) is the
same fallback as the failed-fetch branch. -/
def get_sold_listings (fetched : Option (List EbayItem)) (gen : ℕ → PriceRecord)
    (max_results : ℕ := 50) : List PriceRecord :=
  match fetched with
  | none => get_mock_data gen max_results
  | some items =>
    if items = [] then get_mock_data gen max_results
    else
      let results := parseEbayItems items max_results
      if results.length < 10 then results ++ get_mock_data gen (max_results - results.length)
      else results

/-! ## GradingAnalyzer (`src/analysis/grading_analyzer.py`) -/

/-- The default grading cost of `GradingAnalyzer.__init__` (line 24). -/
def default_grading_cost : ℚ := 35

/-- The dict returned by `GradingAnalyzer.analyze_grading_opportunity`
(lines 92-112) and `_get_empty_results` (lines 282-302). -/
structure GradingAnalysis where
  ungraded_avg_price : ℚ
  ungraded_data_points : ℕ
  graded_avg_price : ℚ
  graded_data_points : ℕ
  psa10_avg_price : ℚ
  psa10_data_points : ℕ
  multiplier : ℚ
  grading_cost : ℚ
  gross_profit : ℚ
  net_profit : ℚ
  roi_percentage : ℚ
  recommendation : String
  worth_grading : Bool
  ungraded_min : ℚ
  ungraded_max : ℚ
  psa10_min : ℚ
  psa10_max : ℚ
deriving DecidableEq, Repr

/-- `GradingAnalyzer._get_grading_recommendation` (lines 211-237); 50 and 25
are `MIN_NET_PROFIT_GOOD` and `MIN_NET_PROFIT_MARGINAL` (lines 21-22).  The
`ungraded_price` argument of the source is unused by its body. -/
def get_grading_recommendation (multiplier net_profit : ℚ) : String :=
  if 5 ≤ multiplier ∧ 200 ≤ net_profit then "EXCELLENT - High priority grading candidate"
  else if 4 ≤ multiplier ∧ 100 ≤ net_profit then "VERY GOOD - Strong grading opportunity"
  else if 3 ≤ multiplier ∧ 50 ≤ net_profit then "GOOD - Worth considering for grading"
  else if 2 ≤ multiplier ∧ 25 ≤ net_profit then "MARGINAL - Only if card condition is pristine"
  else "NOT RECOMMENDED - Grading costs outweigh benefits"

/-- `GradingAnalyzer._get_empty_results` (lines 282-302). -/
def empty_grading_results (cost : ℚ) : GradingAnalysis :=
  { ungraded_avg_price := 0, ungraded_data_points := 0, graded_avg_price := 0,
    graded_data_points := 0, psa10_avg_price := 0, psa10_data_points := 0,
    multiplier := 0, grading_cost := cost, gross_profit := 0, net_profit := 0,
    roi_percentage := 0, recommendation := "INSUFFICIENT DATA", worth_grading := false,
    ungraded_min := 0, ungraded_max := 0, psa10_min := 0, psa10_max := 0 }

/-- `GradingAnalyzer.analyze_grading_opportunity` (lines 34-112), the
`AnalyzeGrading` operation: splits graded/ungraded (either empty gives the
insufficient-data result), takes the PSA-grade-10 subset (estimated as 1.2x
the graded mean when empty), and computes multiplier, profits, ROI and the
recommendation tier.  `cost` is `self.default_grading_cost`. -/
def analyze_grading_opportunity (rows : List PriceRecord)
    (cost : ℚ := default_grading_cost) : GradingAnalysis :=
  if rows = [] then empty_grading_results cost
  else
    let graded_df := rows.filter (·.graded)
    let ungraded_df := rows.filter (fun r => !r.graded)
    if graded_df = [] ∨ ungraded_df = [] then empty_grading_results cost
    else
      let avg_ungraded := meanQ (ungraded_df.map (·.price))
      let avg_graded := meanQ (graded_df.map (·.price))
      let psa10_df := graded_df.filter fun r =>
        r.grade_value = some 10 ∧ r.grade_company = some "PSA"
      let avg_psa10 := if psa10_df = [] then avg_graded * (12/10)
                       else meanQ (psa10_df.map (·.price))
      let psa10_count := if psa10_df = [] then 0 else psa10_df.length
      let multiplier := if 0 < avg_ungraded then avg_psa10 / avg_ungraded else 0
      let gross_profit := avg_psa10 - avg_ungraded
      let net_profit := gross_profit - cost
      let roi := if 0 < avg_ungraded + cost then (net_profit / (avg_ungraded + cost)) * 100
                 else 0
      { ungraded_avg_price := avg_ungraded
        ungraded_data_points := ungraded_df.length
        graded_avg_price := avg_graded
        graded_data_points := graded_df.length
        psa10_avg_price := avg_psa10
        psa10_data_points := psa10_count
        multiplier := multiplier
        grading_cost := cost
        gross_profit := gross_profit
        net_profit := net_profit
        roi_percentage := roi
        recommendation := get_grading_recommendation multiplier net_profit
        worth_grading := if 3 ≤ multiplier ∧ 50 < net_profit then true else false
        ungraded_min := listMinQ (ungraded_df.map (·.price))
        ungraded_max := listMaxQ (ungraded_df.map (·.price))
        psa10_min := if psa10_df = [] then 0 else listMinQ (psa10_df.map (·.price))
        psa10_max := if psa10_df = [] then 0 else listMaxQ (psa10_df.map (·.price)) }

/-! ## TrendDetector (`src/analysis/trend_detector.py`) -/

/-- Population variance of a list, the square of `numpy.std` (default
`ddof=0`); `np.std` itself is the real square root of this value. -/
def npVarQ (xs : List ℚ) : ℚ :=
  (xs.map fun x => (x - meanQ xs) ^ 2).sum / xs.length

/-- The velocity factor of `TrendDetector._calculate_trend_score` (line 78):
`min(40, max(0, (velocity + 10) * 2))`. -/
def velocity_score (velocity : ℚ) : ℚ :=
  min 40 (max 0 ((velocity + 10) * 2))

/-- The clamp operation written as the spec words it:
`clamp(x, lo, hi) = max lo (min hi x)`.  Stated from the spec for comparison
with the `min (max ...)` form of the source. -/
def clampSpec (lo hi x : ℚ) : ℚ := max lo (min hi x)

/-- `TrendDetector._calculate_source_agreement` (lines 101-131), stated
relationally over `ℝ` because `np.std(means)` is a real square root:
`calculate_source_agreement means score` holds exactly when the function
applied to per-source mean prices `means` returns `score`.  Fewer than two
sources, no positive means, or a zero mean of means give the neutral 10;
otherwise `cv = np.std(means) / np.mean(means)` and
`score = min(20, max(0, 20 * (1 - cv * 2)))`. -/
def calculate_source_agreement (means : List ℚ) (score : ℝ) : Prop :=
  if means.length < 2 then score = 10
  else
    let pos := means.filter fun m => 0 < m
    if pos = [] then score = 10
    else if meanQ pos = 0 then score = 10
    else ∃ cv : ℝ, cv = Real.sqrt (npVarQ pos) / (meanQ pos : ℝ) ∧
      score = min 20 (max 0 (20 * (1 - cv * 2)))

/-! ## BacktestingEngine (`src/analysis/backtesting.py`) -/

/-- The value of `_calculate_annualized_return`.  Its guarded branches return
the exact rational `val 0`; the general branch computes
`((1 + total_return) ** (1 / years) - 1) * 100` with `years = days / 365.25`,
a real-exponent power that is irrational for almost all inputs, so it is
embedded symbolically: `powExpr r days` denotes that expression for
`total_return = r`.  No claim depends on the value of the general branch. -/
inductive AnnualizedReturn where
  | val : ℚ → AnnualizedReturn
  | powExpr : ℚ → ℤ → AnnualizedReturn
deriving DecidableEq, Repr

/-- Median of a price column as `pandas.median` computes it: middle element of
the sorted column, or the mean of the two middle elements for an even count
(the sources only apply it to non-empty columns). -/
def medianQ (xs : List ℚ) : ℚ :=
  let s := List.insertionSort (· ≤ ·) xs
  let n := s.length
  if n = 0 then 0
  else if n % 2 = 1 then s.getD (n / 2) 0
  else (s.getD (n / 2 - 1) 0 + s.getD (n / 2) 0) / 2

/-- `pandas.quantile` with the default linear interpolation: position
`(n - 1) * q` in the sorted column, linearly interpolated between the
neighbouring elements. -/
def quantileQ (xs : List ℚ) (q : ℚ) : ℚ :=
  let s := List.insertionSort (· ≤ ·) xs
  let n := s.length
  if n = 0 then 0
  else
    let pos : ℚ := ((n : ℚ) - 1) * q
    let i : ℕ := (⌊pos⌋).toNat
    let frac : ℚ := pos - ⌊pos⌋
    let lo := s.getD i 0
    let hi := s.getD (i + 1) lo
    lo + frac * (hi - lo)

/-- `BacktestingEngine._calculate_total_return` (lines 73-79) on the
date-sorted price column: 0 for fewer than two rows, else
`(last - first) / first * 100`. -/
def calculate_total_return (prices : List ℚ) : ℚ :=
  if prices.length < 2 then 0
  else ((prices.getLast?.getD 0 - prices.headI) / prices.headI) * 100

/-- `BacktestingEngine._calculate_annualized_return` (lines 81-96): 0 for
fewer than two rows or a zero day span; otherwise the symbolic power
expression (for an integer day span, `days > 0` makes `years > 0`, so the
final `return 0.0` of the source is unreachable). -/
def calculate_annualized_return (prices : List ℚ) (days : ℤ) : AnnualizedReturn :=
  if prices.length < 2 then .val 0
  else if days = 0 then .val 0
  else .powExpr (calculate_total_return prices / 100) days

/-- `BacktestingEngine._analyze_trend` (lines 131-157): below 10 rows returns
"insufficient_data"; otherwise the least-squares slope (`np.polyfit` degree 1)
of the last 30 prices against index 0..k-1, normalized by the overall mean
price, bucketed at 2, 0.5, -0.5 and -2 percent. -/
def analyze_trend (prices : List ℚ) : String :=
  if prices.length < 10 then "insufficient_data"
  else
    let recent := prices.drop (prices.length - 30)
    let k := recent.length
    let xs : List ℚ := (List.range k).map fun i => (i : ℚ)
    let xbar := meanQ xs
    let ybar := meanQ recent
    let num := ((xs.zip recent).map fun p => (p.1 - xbar) * (p.2 - ybar)).sum
    let den := (xs.map fun x => (x - xbar) ^ 2).sum
    let slope := num / den
    let avg_price := meanQ prices
    let normalized_slope := if 0 < avg_price then slope / avg_price * 100 else 0
    if 2 < normalized_slope then "strong_upward"
    else if 1/2 < normalized_slope then "upward"
    else if -(1/2) < normalized_slope then "stable"
    else if -2 < normalized_slope then "downward"
    else "strong_downward"

/-- `BacktestingEngine._calculate_momentum` (lines 159-167): 0 below 30 rows,
else the percent change from the price 30 rows back to the last price. -/
def calculate_momentum (prices : List ℚ) : ℚ :=
  if prices.length < 30 then 0
  else
    let recent_price := prices.getLast?.getD 0
    let old_price := prices.getD (prices.length - 30) 0
    if 0 < old_price then ((recent_price - old_price) / old_price) * 100 else 0

/-- The metrics dict of `BacktestingEngine.analyze_inception_to_date`
(lines 36-69), restricted to the fields that are exact rationals.  The
omitted fields `std_dev`, `volatility`, `sharpe_ratio`, `upper_band`,
`lower_band` and `confidence_95` all contain the real square root of a
variance (and are `NaN` on a single row) and are exercised by no claim. -/
structure BacktestMetrics where
  inception_date : Option ℤ
  current_date : Option ℤ
  days_tracked : ℤ
  mean_price : ℚ
  median_price : ℚ
  min_price : ℚ
  max_price : ℚ
  current_price : ℚ
  total_return_pct : ℚ
  annualized_return_pct : AnnualizedReturn
  trend : String
  momentum : ℚ
  support_level : ℚ
  resistance_level : ℚ
deriving DecidableEq, Repr

/-- `BacktestingEngine._get_empty_results` (lines 241-264), restricted to the
embedded fields: every numeric field is zero, the dates are `None` and the
trend label is "no_data". -/
def empty_backtest_results : BacktestMetrics :=
  { inception_date := none, current_date := none, days_tracked := 0,
    mean_price := 0, median_price := 0, min_price := 0, max_price := 0,
    current_price := 0, total_return_pct := 0,
    annualized_return_pct := .val 0, trend := "no_data", momentum := 0,
    support_level := 0, resistance_level := 0 }

/-- `BacktestingEngine.analyze_inception_to_date` (lines 17-71), the metrics
half of `RunBacktest`: an empty history returns `_get_empty_results`,
otherwise the rows are sorted by date and the metrics are computed on the
price column. -/
def analyze_inception_to_date (price_history : List PriceRecord) : BacktestMetrics :=
  if price_history = [] then empty_backtest_results
  else
    let sorted := sortByDate price_history
    let prices := sorted.map (·.price)
    let dates := sorted.map (·.date)
    let dmin := listMinI dates
    let dmax := listMaxI dates
    { inception_date := some dmin
      current_date := some dmax
      days_tracked := dmax - dmin
      mean_price := meanQ prices
      median_price := medianQ prices
      min_price := listMinQ prices
      max_price := listMaxQ prices
      current_price := prices.getLast?.getD 0
      total_return_pct := calculate_total_return prices
      annualized_return_pct := calculate_annualized_return prices (dmax - dmin)
      trend := analyze_trend prices
      momentum := calculate_momentum prices
      support_level := quantileQ prices (1/4)
      resistance_level := quantileQ prices (3/4) }

/-- The 30-period rolling window (pandas rolling with window 30 and a
minimum of 1 sample) at row `idx`: rows `max(0, idx - 29)` to `idx`
inclusive. -/
def window30 (prices : List ℚ) (idx : ℕ) : List ℚ :=
  (prices.take (idx + 1)).drop (idx + 1 - 30)

/-- Rolling mean `ma_30` at row `idx` (`backtesting.py` line 208,
`signals.py` line 189). -/
def ma30 (prices : List ℚ) (idx : ℕ) : ℚ := meanQ (window30 prices idx)

/-- Sample variance (`ddof=1`), the square of the pandas rolling `std`;
`std_30` at row `idx` is the real square root of `std30sq prices idx`
(`backtesting.py` line 209, `signals.py` line 190).  Signals are only read at
`idx ≥ 30`, where the window has 30 rows. -/
def std30sq (prices : List ℚ) (idx : ℕ) : ℚ :=
  let xs := window30 prices idx
  (xs.map fun x => (x - meanQ xs) ^ 2).sum / ((xs.length : ℚ) - 1)

/-- The per-row classification of
`BacktestingEngine.generate_historical_signals` (lines 220-227), kind only,
at rolling mean `mean` and rolling standard deviation `std`: BUY when
`price < mean - std`, SELL when `price > mean + std`, else HOLD. -/
def histSignalKind (price mean std : ℚ) : String :=
  if price < mean - std then "BUY"
  else if mean + std < price then "SELL"
  else "HOLD"

/-- `BacktestingEngine.generate_historical_signals` (lines 188-239) at one
row, stated relationally over `ℝ` because the rolling `std_30` is a real
square root: `histSignalAt rows idx sig conf` holds exactly when the signal
stream of the date-sorted rows contains, at row `idx ≥ 30` (rows below 30 are
skipped), the signal kind `sig` with confidence `conf`.  The confidences are
the ones of lines 220-228: `min(((mean - price) / std) * 100, 100)` for BUY,
`min(((price - mean) / std) * 100, 100)` for SELL, and
`50 + abs(price - mean) / std * 25` for HOLD. -/
def histSignalAt (rows : List PriceRecord) (idx : ℕ) (sig : String) (conf : ℝ) : Prop :=
  let prices := (sortByDate rows).map (·.price)
  30 ≤ idx ∧ idx < prices.length ∧
  ∃ price mean std : ℝ,
    price = (prices.getD idx 0 : ℚ) ∧ mean = (ma30 prices idx : ℚ) ∧
    std = Real.sqrt ((std30sq prices idx : ℚ)) ∧
    ((price < mean - std ∧ sig = "BUY" ∧ conf = min ((mean - price) / std * 100) 100) ∨
     (¬ price < mean - std ∧ mean + std < price ∧ sig = "SELL" ∧
       conf = min ((price - mean) / std * 100) 100) ∨
     (¬ price < mean - std ∧ ¬ mean + std < price ∧ sig = "HOLD" ∧
       conf = 50 + |price - mean| / std * 25))

/-! ## Entry/exit strategy loop (`src/analysis/signals.py` lines 166-260) -/

/-- One row of the dataframe iterated by
`SignalGenerator.analyze_entry_exit_points`: the price together with the
rolling statistics `ma_30` and `std_30` (lines 189-190) that the loop reads at
that row.  The rolling `std_30` is a real square root, so the rows carry the
rolling statistics as data; the strategy loop itself never recomputes them
and its invariants hold for arbitrary values. -/
structure SignalRow where
  date : ℤ
  price : ℚ
  ma_30 : ℚ
  std_30 : ℚ
deriving DecidableEq, Repr

/-- Ordering of strategy rows by date (`df.sort_values` on dates, line 186). -/
def sigDateLe (a b : SignalRow) : Prop := a.date ≤ b.date

instance : DecidableRel sigDateLe := fun a b => inferInstanceAs (Decidable (a.date ≤ b.date))

/-- One trade appended to `trades` (lines 214-233): BUY entries carry no
profit, SELL entries carry `profit = proceeds - investment_amount`. -/
structure TradeRec where
  ttype : String
  price : ℚ
  shares : ℚ
  profit : Option ℚ
deriving DecidableEq, Repr

/-- The loop state of `analyze_entry_exit_points` (lines 193-196): `position`
is the buy price while holding (`None` while flat), plus `shares`, `cash` and
the trade log. -/
structure TradeState where
  position : Option ℚ
  shares : ℚ
  cash : ℚ
  trades : List TradeRec
deriving DecidableEq, Repr

/-- The loop body of `analyze_entry_exit_points` (lines 198-235): classify the
row with `generate_signal(price, ma_30, std_30)` (trend defaulted to
"stable"), BUY all cash while flat when `cash >= price`, SELL the whole
position while holding, otherwise leave the state unchanged. -/
def trade_step (investment : ℚ) (st : TradeState) (row : SignalRow) : TradeState :=
  let sig := generate_signal row.price row.ma_30 row.std_30
  if sig.signal = "BUY" ∧ st.position = none ∧ row.price ≤ st.cash then
    { position := some row.price, shares := st.cash / row.price, cash := 0,
      trades := st.trades ++ [⟨"BUY", row.price, st.cash / row.price, none⟩] }
  else if sig.signal = "SELL" ∧ st.position ≠ none then
    { position := none, shares := 0, cash := st.shares * row.price,
      trades := st.trades ++
        [⟨"SELL", row.price, st.shares, some (st.shares * row.price - investment)⟩] }
  else st

/-- The initial loop state (lines 194-196): flat, no shares, all cash. -/
def initTradeState (investment : ℚ) : TradeState :=
  { position := none, shares := 0, cash := investment, trades := [] }

/-- The dict returned by `analyze_entry_exit_points` (lines 250-260); the
empty-history early return (a dict with success set to false) is embedded as
the all-zero record with `success := false`. -/
structure EntryExitResult where
  success : Bool
  initial_investment : ℚ
  final_value : ℚ
  total_return_pct : ℚ
  total_trades : ℕ
  profitable_trades : ℕ
  win_rate : ℚ
  trades : List TradeRec
  currently_holding : Bool
deriving DecidableEq, Repr

/-- `SignalGenerator.analyze_entry_exit_points` (lines 166-260), the
`SimulateStrategy` operation: sort by date, skip the first 30 rows
(`if idx < 30: continue`), fold the trade loop, then report the final value
(`shares * last price` while holding, the cash balance otherwise) and the
trade statistics. -/
def analyze_entry_exit_points (price_history : List SignalRow)
    (investment : ℚ := 1000) : EntryExitResult :=
  if price_history = [] then
    { success := false, initial_investment := 0, final_value := 0,
      total_return_pct := 0, total_trades := 0, profitable_trades := 0,
      win_rate := 0, trades := [], currently_holding := false }
  else
    let sorted := List.insertionSort sigDateLe price_history
    let final := (sorted.drop 30).foldl (trade_step investment) (initTradeState investment)
    let final_value := if final.position.isSome
        then final.shares * ((sorted.map (·.price)).getLast?.getD 0)
        else final.cash
    let total_return := ((final_value - investment) / investment) * 100
    let profitable_trades := (final.trades.filter fun t => 0 < t.profit.getD 0).length
    let total_trades := (final.trades.filter fun t => t.ttype = "SELL").length
    { success := true
      initial_investment := investment
      final_value := final_value
      total_return_pct := total_return
      total_trades := total_trades
      profitable_trades := profitable_trades
      win_rate := if 0 < total_trades then ((profitable_trades : ℚ) / total_trades) * 100
                  else 0
      trades := final.trades
      currently_holding := final.position.isSome }

/-- The single-position invariant of the trade loop: flat exactly when no
shares are held, and all cash is invested while a position is open. -/
def posInv (st : TradeState) : Prop :=
  (st.position = none ↔ st.shares = 0) ∧ (st.position ≠ none → st.cash = 0)

/-! ## Concrete inputs used by the scenario claims -/

/-- The two observations of the grading scenario: an ungraded sale at 100 and
a PSA-10 graded sale at 400, both at the same timestamp. -/
def gradingScenarioRows : List PriceRecord :=
  [{ date := 0, price := 100, source := "eBay", graded := false,
     grade_value := none, grade_company := none },
   { date := 0, price := 400, source := "eBay", graded := true,
     grade_value := some 10, grade_company := some "PSA" }]

/-- The three per-source mean prices of the agreement scenario. -/
def agreementScenarioMeans : List ℚ := [100, 102, 98]

/-- An observation with timestamp 1 from eBay. -/
def obsLate : PriceRecord :=
  { date := 1, price := 5, source := "eBay", graded := false,
    grade_value := none, grade_company := none }

/-- An observation with timestamp 0 from eBay. -/
def obsEarly : PriceRecord :=
  { date := 0, price := 6, source := "eBay", graded := false,
    grade_value := none, grade_company := none }

/-- An observation with timestamp 0 from PriceCharting; lexically
"PriceCharting" sorts before "eBay" (capital letters precede lower case). -/
def obsPC : PriceRecord :=
  { date := 0, price := 7, source := "PriceCharting", graded := false,
    grade_value := none, grade_company := none }

/-- A 31-point price history for the signal-stream scenario.  The rolling
window at row 30 (rows 1-30) is three spikes 13, 3, 17 and twenty-six
quiet points at 10 followed by the final price 7: its mean is 10 and its
sample variance is exactly 4, so the rolling standard deviation is exactly
2 and the z-score of the final price is -1.5. -/
def streamScenarioPrices : List ℚ := [10, 13, 3, 17] ++ List.replicate 26 10 ++ [7]

/-- The price history of the signal-stream scenario as dated rows
(dates 0, 1, ..., 30, already in date order). -/
def streamScenarioRows : List PriceRecord :=
  streamScenarioPrices.enum.map fun p =>
    { date := (p.1 : ℤ), price := p.2, source := "eBay", graded := false,
      grade_value := none, grade_company := none }

/-- A constant synthetic-generator stand-in for the witness evaluations. -/
def constantGen : ℕ → PriceRecord := fun i =>
  { date := -(i : ℤ), price := 50, source := "eBay", graded := false,
    grade_value := none, grade_company := none }

/-- A 32-row strategy input with constant positive prices. -/
def strategyScenarioRows : List SignalRow :=
  List.replicate 32 { date := 0, price := 10, ma_30 := 10, std_30 := 1 }

/-- Rows whose ungraded subset is non-empty but has mean price 0 (one free
ungraded sale next to one graded sale). -/
def zeroMeanRows : List PriceRecord :=
  [{ date := 0, price := 0, source := "eBay", graded := false,
     grade_value := none, grade_company := none },
   { date := 0, price := 5, source := "eBay", graded := true,
     grade_value := none, grade_company := none }]

/-! ## Claim theorems -/

/-- C7: for every price, mean and trend, `Classify` with a standard deviation
of 0 returns a z-score of 0 and the kind HOLD — the guarded z-score branch
never divides. -/
theorem classify_zero_std_holds (p m : ℚ) (t : String) :
    (generate_signal p m 0 t).z_score = 0 ∧ (generate_signal p m 0 t).signal = "HOLD" := by
  have hz : zScoreOf p m 0 = 0 := by simp [zScoreOf]
  constructor
  · show roundTo 2 (zScoreOf p m 0) = 0
    rw [hz]
    norm_num [roundTo, roundHalfEven]
  · show signalKind (zScoreOf p m 0) = "HOLD"
    rw [hz]
    norm_num [signalKind]

/-- C8: for every velocity percentage, the velocity sub-score of the trend
scorer equals `clamp((velocity_pct + 10) * 2, 0, 40)`; in particular a
velocity of 20 percent yields the capped score 40, not 60. -/
theorem velocity_score_is_clamp (v : ℚ) :
    velocity_score v = clampSpec 0 40 ((v + 10) * 2) ∧
    velocity_score 20 = 40 ∧ (20 + 10) * 2 = (60 : ℚ) := by
  refine ⟨?_, by norm_num [velocity_score], by norm_num⟩
  unfold velocity_score clampSpec
  rcases le_total ((v + 10) * 2) 0 with h | h <;>
    rcases le_total ((v + 10) * 2) 40 with h2 | h2 <;>
      simp [min_def, max_def] <;> split_ifs <;> linarith

/-- C5: on the scenario observations (an ungraded sale at 100 and a PSA-10
graded sale at 400 at the same timestamp) with grading cost 35,
`AnalyzeGrading` returns multiplier 4, net profit 265 and the VERY GOOD
recommendation tier. -/
theorem grading_scenario_very_good :
    (analyze_grading_opportunity gradingScenarioRows 35).multiplier = 4 ∧
    (analyze_grading_opportunity gradingScenarioRows 35).net_profit = 265 ∧
    (analyze_grading_opportunity gradingScenarioRows 35).recommendation =
      "VERY GOOD - Strong grading opportunity" ∧
    (analyze_grading_opportunity gradingScenarioRows 35).worth_grading = true := by
  have hm : (analyze_grading_opportunity gradingScenarioRows 35).multiplier = 4 := by
    simp +decide only [analyze_grading_opportunity, gradingScenarioRows, meanQ,
      get_grading_recommendation, empty_grading_results]
    norm_num
  have hn : (analyze_grading_opportunity gradingScenarioRows 35).net_profit = 265 := by
    simp +decide only [analyze_grading_opportunity, gradingScenarioRows, meanQ,
      get_grading_recommendation, empty_grading_results]
    norm_num
  have hr : (analyze_grading_opportunity gradingScenarioRows 35).recommendation =
      "VERY GOOD - Strong grading opportunity" := by
    simp +decide only [analyze_grading_opportunity, gradingScenarioRows, meanQ,
      get_grading_recommendation, empty_grading_results]
    norm_num
  have hw : (analyze_grading_opportunity gradingScenarioRows 35).worth_grading = true := by
    simp +decide only [analyze_grading_opportunity, gradingScenarioRows, meanQ,
      get_grading_recommendation, empty_grading_results]
    norm_num
  exact ⟨hm, hn, hr, hw⟩

/-- C3: whenever the graded or the ungraded subset is empty, and also whenever
the ungraded mean is 0, the graded-vs-ungraded comparison returns the
insufficient-data sentinel (`multiplier = none`); the function is total, so
it never divides by zero or raises. -/
theorem graded_comparison_sentinel (rows : List PriceRecord) :
    ((rows.filter (·.graded) = [] ∨ rows.filter (fun r => !r.graded) = []) →
      (calculate_graded_comparison rows).multiplier = none ∧
      (calculate_graded_comparison rows).insufficient_data = true) ∧
    (meanQ ((rows.filter (fun r => !r.graded)).map (·.price)) = 0 →
      (calculate_graded_comparison rows).multiplier = none) := by
  unfold calculate_graded_comparison
  constructor
  · intro h
    rw [if_pos h]
    exact ⟨rfl, rfl⟩
  · intro hu
    by_cases h : rows.filter (·.graded) = [] ∨ rows.filter (fun r => !r.graded) = []
    · rw [if_pos h]
    · rw [if_neg h]
      simp only [hu]
      norm_num

/-- Witness for C3: the empty observation list has both subsets empty and
yields the sentinel, and `zeroMeanRows` has a non-empty ungraded subset with
mean 0 and also yields the sentinel. -/
theorem graded_comparison_sentinel_witness :
    (([] : List PriceRecord).filter (·.graded) = [] ∧
      (calculate_graded_comparison []).multiplier = none ∧
      (calculate_graded_comparison []).insufficient_data = true) ∧
    (meanQ ((zeroMeanRows.filter (fun r => !r.graded)).map (·.price)) = 0 ∧
      (calculate_graded_comparison zeroMeanRows).multiplier = none) := by
  have h0 : meanQ ((zeroMeanRows.filter (fun r => !r.graded)).map (·.price)) = 0 := by
    norm_num [zeroMeanRows, meanQ]
  refine ⟨⟨rfl, ?_, ?_⟩, h0, (graded_comparison_sentinel zeroMeanRows).2 h0⟩
  · exact ((graded_comparison_sentinel []).1 (Or.inl rfl)).1
  · exact ((graded_comparison_sentinel []).1 (Or.inl rfl)).2

/-- C9: an eBay adapter run whose page fetch fails still returns exactly
`max_results` synthetic observations, and every run (fetch failed, empty
page, or fewer than 10 usable records) returns at least 10 records — never an
empty result — provided `max_results` is at least the fallback minimum 10
(the manager always calls it with the default 50). -/
theorem ebay_fallback_never_empty (fetched : Option (List EbayItem))
    (gen : ℕ → PriceRecord) (max_results : ℕ) (h : 10 ≤ max_results) :
    10 ≤ (get_sold_listings fetched gen max_results).length ∧
    (get_sold_listings none gen max_results).length = max_results ∧
    get_sold_listings none gen max_results ≠ [] := by
  have hmock : ∀ n, (get_mock_data gen n).length = n := by
    intro n
    simp [get_mock_data]
  have hnone : (get_sold_listings none gen max_results).length = max_results := hmock _
  refine ⟨?_, hnone, ?_⟩
  · match fetched with
    | none =>
      rw [hnone]
      exact h
    | some items =>
      simp only [get_sold_listings]
      by_cases hi : items = []
      · rw [if_pos hi, hmock]
        exact h
      · rw [if_neg hi]
        by_cases hr : (parseEbayItems items max_results).length < 10
        · rw [if_pos hr]
          have hle : (parseEbayItems items max_results).length ≤ max_results := by
            calc (parseEbayItems items max_results).length
                ≤ (items.take max_results).length := List.length_filterMap_le _ _
              _ ≤ max_results := by simp
          rw [List.length_append, hmock]
          omega
        · rw [if_neg hr]
          omega
  · intro hc
    rw [← List.length_eq_zero] at hc
    omega

/-- Witness for C9: with the default `max_results = 50` and a failing fetch,
the adapter returns 50 synthetic records. -/
theorem ebay_fallback_never_empty_witness :
    (10 ≤ 50) ∧ 10 ≤ (get_sold_listings none constantGen 50).length ∧
    (get_sold_listings none constantGen 50).length = 50 ∧
    get_sold_listings none constantGen 50 ≠ [] := by
  have h := ebay_fallback_never_empty none constantGen 50 (by norm_num)
  exact ⟨by norm_num, h.1, h.2.1, h.2.2⟩

/-- C6: `RunBacktest` on an empty history returns the all-zero result with
trend label "no_data", and on any single observation returns a total return
of 0 percent and an annualized return of 0 percent; both paths are guarded
branches of total functions, so neither raises. -/
theorem backtest_degenerate_inputs :
    analyze_inception_to_date [] = empty_backtest_results ∧
    empty_backtest_results.trend = "no_data" ∧
    (∀ r : PriceRecord, (analyze_inception_to_date [r]).total_return_pct = 0 ∧
      (analyze_inception_to_date [r]).annualized_return_pct = AnnualizedReturn.val 0) := by
  refine ⟨by simp [analyze_inception_to_date], rfl, fun r => ?_⟩
  have hsort : sortByDate [r] = [r] := rfl
  have hne : ([r] : List PriceRecord) ≠ [] := by simp
  constructor
  · unfold analyze_inception_to_date
    rw [if_neg hne]
    simp only [hsort]
    simp [calculate_total_return]
  · unfold analyze_inception_to_date
    rw [if_neg hne]
    simp only [hsort]
    simp [calculate_annualized_return]

/-- Counterexample to C1: `get_all_prices` does not sort at all — two
completed single-observation results arriving newest-first stay in completion
order — and even the sorted history of `get_inception_data` breaks timestamp
ties by completion order, not source-name lexical order: with eBay completing
before PriceCharting at an equal timestamp, the history keeps eBay first
although "PriceCharting" sorts lexically before "eBay". -/
theorem collect_all_not_spec_sorted :
    ¬ specMergeSorted (get_all_prices [[obsLate], [obsEarly]]) ∧
    (get_inception_data "card" [[obsEarly], [obsPC]]).price_history = [obsEarly, obsPC] ∧
    ¬ specMergeSorted [obsEarly, obsPC] ∧
    lexLt obsPC.source.data obsEarly.source.data = true := by
  exact ⟨by decide, by decide, by decide, by decide⟩

/-- C1 as amended: `get_all_prices` returns the concatenation of the
completed per-adapter results in completion order, unsorted; the
`price_history` of `get_inception_data` is that merged sequence stably
sorted ascending by timestamp only (the stable Python list sort keeps
equal-timestamp observations in completion order rather than source-name
order), so the merge is deterministic only given the per-adapter results in
a fixed completion order. -/
theorem inception_merge_sorted_stable (card : String)
    (completed : List (List PriceRecord)) :
    ((get_inception_data card completed).price_history).Sorted dateLe ∧
    ((get_inception_data card completed).price_history).Perm
      (get_all_prices completed) ∧
    (get_inception_data card completed).data_points =
      (get_all_prices completed).length := by
  refine ⟨List.sorted_insertionSort dateLe _, List.perm_insertionSort dateLe _, ?_⟩
  exact (List.perm_insertionSort dateLe _).length_eq

/-- On the scenario means `[100, 102, 98]` the agreement relation pins the
score to `min(20, max(0, 20 * (1 - (sqrt(8/3)/100) * 2)))`: the population
variance of the means is exactly 8/3 and their mean is 100. -/
lemma agreement_scenario_iff (s : ℝ) :
    calculate_source_agreement agreementScenarioMeans s ↔
      s = min 20 (max 0 (20 * (1 - Real.sqrt (8/3) / 100 * 2))) := by
  unfold calculate_source_agreement
  have hfil : agreementScenarioMeans.filter (fun m => 0 < m) = agreementScenarioMeans := by
    decide
  rw [if_neg (by decide), hfil, if_neg (by decide),
    if_neg (by norm_num [agreementScenarioMeans, meanQ])]
  have hvar : npVarQ agreementScenarioMeans = 8/3 := by
    norm_num [npVarQ, meanQ, agreementScenarioMeans]
  have hmean : meanQ agreementScenarioMeans = 100 := by
    norm_num [meanQ, agreementScenarioMeans]
  rw [hvar, hmean]
  push_cast
  simp [exists_eq_left]

/-- Rational bounds on `sqrt(8/3)`, the population standard deviation of the
scenario means. -/
lemma sqrt83_bounds : (1632/1000 : ℝ) < Real.sqrt (8/3) ∧ Real.sqrt (8/3) < 1634/1000 := by
  constructor
  · rw [Real.lt_sqrt (by norm_num)]
    norm_num
  · rw [Real.sqrt_lt' (by norm_num)]
    norm_num

/-- The clamp of the agreement formula is inactive on the scenario means:
the unclamped value `20 * (1 - (sqrt(8/3)/100) * 2)` lies inside `[0, 20]`. -/
lemma agreement_scenario_clamp_inactive :
    min (20:ℝ) (max 0 (20 * (1 - Real.sqrt (8/3) / 100 * 2))) =
      20 * (1 - Real.sqrt (8/3) / 100 * 2) := by
  obtain ⟨h1, h2⟩ := sqrt83_bounds
  rw [max_eq_right (by nlinarith), min_eq_right (by nlinarith)]

/-- Counterexample to C4: on the per-source means `[100, 102, 98]` the trend
scorer does not return an agreement score of about 19.19 — `np.std` is the
population standard deviation, so the CV is `sqrt(8/3)/100 ≈ 0.01633`, not
0.0203, and the score lies strictly between 19.34 and 19.35. -/
theorem source_agreement_scenario_not_19_19 :
    ¬ calculate_source_agreement agreementScenarioMeans (1919/100) := by
  rw [agreement_scenario_iff, agreement_scenario_clamp_inactive]
  obtain ⟨h1, h2⟩ := sqrt83_bounds
  intro h
  nlinarith

/-- C4 as amended: on the per-source means `[100, 102, 98]` the agreement
score equals `clamp(20 * (1 - 2 * CV), 0, 20)` where CV is the population
coefficient of variation `sqrt(8/3)/100 ≈ 0.01633`, giving a score of about
19.347 (strictly between 19.34 and 19.35, inside `[0, 20]`). -/
theorem source_agreement_scenario_population_cv (s : ℝ)
    (h : calculate_source_agreement agreementScenarioMeans s) :
    1934/100 < s ∧ s < 1935/100 ∧ s = 20 * (1 - Real.sqrt (8/3) / 100 * 2) := by
  rw [agreement_scenario_iff, agreement_scenario_clamp_inactive] at h
  obtain ⟨h1, h2⟩ := sqrt83_bounds
  refine ⟨by nlinarith, by nlinarith, h⟩

/-- Witness for C4: the agreement relation does hold at the exact scenario
score `20 * (1 - (sqrt(8/3)/100) * 2)`, which the amended theorem then
brackets between 19.34 and 19.35. -/
theorem source_agreement_scenario_population_cv_witness :
    calculate_source_agreement agreementScenarioMeans
      (20 * (1 - Real.sqrt (8/3) / 100 * 2)) ∧
    1934/100 < 20 * (1 - Real.sqrt (8/3) / 100 * 2) ∧
    20 * (1 - Real.sqrt (8/3) / 100 * 2) < (1935/100 : ℝ) := by
  have hrel : calculate_source_agreement agreementScenarioMeans
      (20 * (1 - Real.sqrt (8/3) / 100 * 2)) := by
    rw [agreement_scenario_iff, agreement_scenario_clamp_inactive]
  have h := source_agreement_scenario_population_cv _ hrel
  exact ⟨hrel, h.1, h.2.1⟩

/-- Counterexample to C2: the rolling signal stream is not classified by
exactly the rule of `Classify`.  On the 31-point scenario history the stream
emits, at row 30 (price 7, rolling mean 10, rolling std exactly 2, z-score
-1.5), a BUY with confidence 100 = min(|z| * 100, 100), while `Classify` at
the same price, mean and std gives the BUY confidence
min(|z| * 50, 100) = 75. -/
theorem hist_stream_confidence_mismatch :
    histSignalAt streamScenarioRows 30 "BUY" 100 ∧
    zScoreOf 7 10 2 = -(3/2) ∧
    (generate_signal 7 10 2 "stable").signal = "BUY" ∧
    (generate_signal 7 10 2 "stable").confidence = 75 ∧
    min (|(-(3/2) : ℚ)| * 50) 100 = 75 ∧
    ((100 : ℝ) ≠ 75) := by
  have hrows : (sortByDate streamScenarioRows).map (·.price) = streamScenarioPrices := by
    decide
  have h30 : ma30 streamScenarioPrices 30 = 10 := by
    norm_num [ma30, window30, streamScenarioPrices, meanQ, List.replicate]
  have hsq : std30sq streamScenarioPrices 30 = 4 := by
    norm_num [std30sq, window30, streamScenarioPrices, meanQ, List.replicate]
  have hget : streamScenarioPrices.getD 30 0 = 7 := by decide
  have hsqrt : Real.sqrt (((4:ℚ) : ℝ)) = 2 := by
    have h4 : ((4:ℚ) : ℝ) = 2^2 := by norm_num
    rw [h4, Real.sqrt_sq (by norm_num : (0:ℝ) ≤ 2)]
  refine ⟨?_, by norm_num [zScoreOf], ?_, ?_, by norm_num [min_def, abs], by norm_num⟩
  · unfold histSignalAt
    simp only [hrows]
    refine ⟨by norm_num, by rw [show streamScenarioPrices.length = 31 by decide]; norm_num,
      7, 10, 2, ?_, ?_, ?_, Or.inl ⟨by norm_num, by trivial, by norm_num [min_def]⟩⟩
    · rw [hget]
      norm_num
    · rw [h30]
      norm_num
    · rw [hsq]
      exact hsqrt.symm
  · simp +decide only [generate_signal, zScoreOf, signalKind]
    norm_num
  · simp +decide only [generate_signal, zScoreOf, signalKind, baseConfidence,
      trendAdjustedConfidence, roundTo, roundHalfEven]
    norm_num [min_def, abs, Int.fract]

/-- C2 as amended: for every positive rolling standard deviation, the
BUY/SELL/HOLD kind emitted by the rolling stream of `RunBacktest` at a point
with price, rolling mean and rolling std agrees with the kind of the
standalone `Classify` rule (z < -1 gives BUY, z > 1 gives SELL, else HOLD);
the confidences differ — the stream uses min(|z| * 100, 100) for BUY and
SELL instead of min(|z| * 50, 100), as the counterexample shows. -/
theorem hist_kind_matches_classify (price mean std : ℚ) (t : String) (hs : 0 < std) :
    histSignalKind price mean std = (generate_signal price mean std t).signal := by
  have hsig : (generate_signal price mean std t).signal
      = signalKind (zScoreOf price mean std) := rfl
  rw [hsig]
  unfold histSignalKind signalKind zScoreOf
  rw [if_pos hs]
  by_cases h1 : price < mean - std
  · rw [if_pos h1, if_pos (by rw [div_lt_iff₀ hs]; linarith)]
  · have hn1 : ¬ (price - mean) / std < -1 := by
      rw [div_lt_iff₀ hs]
      intro h
      exact h1 (by linarith)
    rw [if_neg h1, if_neg hn1]
    by_cases h2 : mean + std < price
    · rw [if_pos h2, if_pos (by rw [lt_div_iff₀ hs]; linarith)]
    · rw [if_neg h2, if_neg (by rw [lt_div_iff₀ hs]; intro h; exact h2 (by linarith))]

/-- Witness for the amended C2: at the scenario point (price 7, mean 10,
std 2) the stream kind and the `Classify` kind coincide. -/
theorem hist_kind_matches_classify_witness :
    (0:ℚ) < 2 ∧ histSignalKind 7 10 2 = (generate_signal 7 10 2 "stable").signal :=
  ⟨by norm_num, hist_kind_matches_classify 7 10 2 "stable" (by norm_num)⟩

/-- The initial strategy state satisfies the single-position invariant. -/
lemma posInv_initTradeState (investment : ℚ) : posInv (initTradeState investment) := by
  constructor
  · simp [initTradeState]
  · simp [initTradeState]

/-- One step of the trade loop preserves the single-position invariant when
the row price is positive: a BUY fires only while flat with `cash >= price`,
so it leaves a non-zero share count and an empty cash balance, and a SELL
liquidates back to the flat state. -/
lemma posInv_trade_step (investment : ℚ) (st : TradeState) (row : SignalRow)
    (hp : 0 < row.price) (h : posInv st) : posInv (trade_step investment st row) := by
  simp only [trade_step]
  split_ifs with h1 h2
  · obtain ⟨hsig, hpos, hcash⟩ := h1
    have hc : st.cash ≠ 0 := ne_of_gt (lt_of_lt_of_le hp hcash)
    constructor
    · exact iff_of_false (by simp) (div_ne_zero hc (ne_of_gt hp))
    · intro _
      rfl
  · exact ⟨iff_of_true rfl rfl, fun hc => absurd rfl hc⟩
  · exact h

/-- The trade loop preserves the single-position invariant along any row
list with positive prices. -/
lemma posInv_foldl (investment : ℚ) (l : List SignalRow) (st : TradeState)
    (h : posInv st) (hl : ∀ r ∈ l, 0 < r.price) :
    posInv (l.foldl (trade_step investment) st) := by
  induction l generalizing st with
  | nil => exact h
  | cons a as ih =>
    exact ih _ (posInv_trade_step _ _ _ (hl a (by simp)) h)
      (fun r hr => hl r (by simp [hr]))

/-- C10: throughout `SimulateStrategy` with positive prices, the state after
every iteration (every prefix of the traded rows) satisfies the
single-position invariant — flat exactly when the share count is 0, and all
cash invested while holding — so at most one position is ever open; and the
reported final value is `shares * last price` while still holding and the
cash balance otherwise. -/
theorem entry_exit_single_position (rows : List SignalRow) (investment : ℚ)
    (hp : ∀ r ∈ rows, 0 < r.price) :
    (∀ k : ℕ, posInv ((((List.insertionSort sigDateLe rows).drop 30).take k).foldl
        (trade_step investment) (initTradeState investment))) ∧
    (rows ≠ [] → (analyze_entry_exit_points rows investment).final_value =
      (if (((List.insertionSort sigDateLe rows).drop 30).foldl
            (trade_step investment) (initTradeState investment)).position.isSome
       then (((List.insertionSort sigDateLe rows).drop 30).foldl
            (trade_step investment) (initTradeState investment)).shares *
            (((List.insertionSort sigDateLe rows).map (·.price)).getLast?.getD 0)
       else (((List.insertionSort sigDateLe rows).drop 30).foldl
            (trade_step investment) (initTradeState investment)).cash)) := by
  constructor
  · intro k
    refine posInv_foldl investment _ _ (posInv_initTradeState investment) ?_
    intro r hr
    refine hp r ?_
    have h1 := List.take_subset k _ hr
    have h2 := List.drop_subset 30 _ h1
    exact (List.mem_insertionSort _).mp h2
  · intro hne
    unfold analyze_entry_exit_points
    rw [if_neg hne]

/-- Witness for C10: the invariant holds on the concrete 32-row scenario
after two traded iterations. -/
theorem entry_exit_single_position_witness :
    (∀ r ∈ strategyScenarioRows, 0 < r.price) ∧
    posInv ((((List.insertionSort sigDateLe strategyScenarioRows).drop 30).take 2).foldl
      (trade_step 1000) (initTradeState 1000)) := by
  have hp : ∀ r ∈ strategyScenarioRows, 0 < r.price := by
    intro r hr
    rw [List.eq_of_mem_replicate hr]
    norm_num
  exact ⟨hp, (entry_exit_single_position strategyScenarioRows 1000 hp).1 2⟩

end PokemonCore
